import Mathlib

/-!
Verification development for the Financial_rag repository (src/app.py,
src/app2.py, src/app_previous.py).

The application is a Streamlit page: the user picks an institution, field,
area and occupation, the app sends prompt strings to an external completion
service and parses the JSON it returns, rendering charts and metrics.  This
file gives a shallow embedding of the pure logic of that code:

* JSON payloads are an inductive `Json` type; Python dictionary indexing,
  list indexing and `len` are modelled as functions into `Except PyError`,
  mirroring the exceptions (`KeyError`, `TypeError`, `IndexError`,
  `ValueError`) the interpreter would raise.  JSON numbers are modelled as
  integers (the payloads the application exchanges carry whole-dollar
  amounts); duplicate dictionary keys are not modelled.
* The external completion call is modelled by its outcome, a value of
  `Except ApiError String`; `query_claude_3_5` (app.py) and `query_llm`
  (app2.py) are translated as functions of that outcome.
* Streamlit session state is an explicit `SessState` record and each button
  handler is a state-passing function; `st.error` / `st.write` become
  explicit `Display` values.
* `format_salary` is modelled over exact decimal values scaled to cents
  (an `Int`), which matches Python floats on the inputs the app feeds it;
  binary floating-point rounding artifacts are outside the model.
-/

namespace FinancialRag

/-- JSON values as produced by `json.loads`. -/
inductive Json where
  | null : Json
  | bool (b : Bool) : Json
  | num (n : Int) : Json
  | str (s : String) : Json
  | arr (xs : List Json) : Json
  | obj (fields : List (String × Json)) : Json

mutual

/-- Structural equality test on `Json` (Python `==` on parsed JSON values). -/
def Json.beq : Json → Json → Bool
  | .null, .null => true
  | .bool a, .bool b => a == b
  | .num a, .num b => a == b
  | .str a, .str b => a == b
  | .arr xs, .arr ys => Json.beqList xs ys
  | .obj fs, .obj gs => Json.beqFields fs gs
  | _, _ => false

/-- Elementwise equality test on JSON arrays. -/
def Json.beqList : List Json → List Json → Bool
  | [], [] => true
  | x :: xs, y :: ys => Json.beq x y && Json.beqList xs ys
  | _, _ => false

/-- Elementwise equality test on JSON object field lists. -/
def Json.beqFields : List (String × Json) → List (String × Json) → Bool
  | [], [] => true
  | (k, v) :: fs, (l, w) :: gs => k == l && Json.beq v w && Json.beqFields fs gs
  | _, _ => false

end

instance : BEq Json := ⟨Json.beq⟩

mutual

theorem Json.beq_refl : ∀ a : Json, Json.beq a a = true
  | .null => rfl
  | .bool a => by simp [Json.beq]
  | .num a => by simp [Json.beq]
  | .str a => by simp [Json.beq]
  | .arr xs => by simp [Json.beq, Json.beqList_refl xs]
  | .obj fs => by simp [Json.beq, Json.beqFields_refl fs]

theorem Json.beqList_refl : ∀ xs : List Json, Json.beqList xs xs = true
  | [] => rfl
  | x :: xs => by simp [Json.beqList, Json.beq_refl x, Json.beqList_refl xs]

theorem Json.beqFields_refl : ∀ fs : List (String × Json), Json.beqFields fs fs = true
  | [] => rfl
  | (k, v) :: fs => by simp [Json.beqFields, Json.beq_refl v, Json.beqFields_refl fs]

end

mutual

theorem Json.eq_of_beq : ∀ {a b : Json}, Json.beq a b = true → a = b
  | .null, .null, _ => rfl
  | .bool a, .bool b, h => by simp [Json.beq] at h; simp [h]
  | .num a, .num b, h => by simp [Json.beq] at h; simp [h]
  | .str a, .str b, h => by simp [Json.beq] at h; simp [h]
  | .arr xs, .arr ys, h => by
      simp only [Json.beq] at h
      simp [Json.eqList_of_beq h]
  | .obj fs, .obj gs, h => by
      simp only [Json.beq] at h
      simp [Json.eqFields_of_beq h]
  | .null, .bool _, h => by simp [Json.beq] at h
  | .null, .num _, h => by simp [Json.beq] at h
  | .null, .str _, h => by simp [Json.beq] at h
  | .null, .arr _, h => by simp [Json.beq] at h
  | .null, .obj _, h => by simp [Json.beq] at h
  | .bool _, .null, h => by simp [Json.beq] at h
  | .bool _, .num _, h => by simp [Json.beq] at h
  | .bool _, .str _, h => by simp [Json.beq] at h
  | .bool _, .arr _, h => by simp [Json.beq] at h
  | .bool _, .obj _, h => by simp [Json.beq] at h
  | .num _, .null, h => by simp [Json.beq] at h
  | .num _, .bool _, h => by simp [Json.beq] at h
  | .num _, .str _, h => by simp [Json.beq] at h
  | .num _, .arr _, h => by simp [Json.beq] at h
  | .num _, .obj _, h => by simp [Json.beq] at h
  | .str _, .null, h => by simp [Json.beq] at h
  | .str _, .bool _, h => by simp [Json.beq] at h
  | .str _, .num _, h => by simp [Json.beq] at h
  | .str _, .arr _, h => by simp [Json.beq] at h
  | .str _, .obj _, h => by simp [Json.beq] at h
  | .arr _, .null, h => by simp [Json.beq] at h
  | .arr _, .bool _, h => by simp [Json.beq] at h
  | .arr _, .num _, h => by simp [Json.beq] at h
  | .arr _, .str _, h => by simp [Json.beq] at h
  | .arr _, .obj _, h => by simp [Json.beq] at h
  | .obj _, .null, h => by simp [Json.beq] at h
  | .obj _, .bool _, h => by simp [Json.beq] at h
  | .obj _, .num _, h => by simp [Json.beq] at h
  | .obj _, .str _, h => by simp [Json.beq] at h
  | .obj _, .arr _, h => by simp [Json.beq] at h

theorem Json.eqList_of_beq : ∀ {xs ys : List Json}, Json.beqList xs ys = true → xs = ys
  | [], [], _ => rfl
  | x :: xs, y :: ys, h => by
      simp only [Json.beqList, Bool.and_eq_true] at h
      simp [Json.eq_of_beq h.1, Json.eqList_of_beq h.2]
  | [], _ :: _, h => by simp [Json.beqList] at h
  | _ :: _, [], h => by simp [Json.beqList] at h

theorem Json.eqFields_of_beq :
    ∀ {fs gs : List (String × Json)}, Json.beqFields fs gs = true → fs = gs
  | [], [], _ => rfl
  | (k, v) :: fs, (l, w) :: gs, h => by
      simp only [Json.beqFields, Bool.and_eq_true, beq_iff_eq] at h
      simp [h.1.1, Json.eq_of_beq h.1.2, Json.eqFields_of_beq h.2]
  | [], _ :: _, h => by simp [Json.beqFields] at h
  | _ :: _, [], h => by simp [Json.beqFields] at h

end

instance : LawfulBEq Json where
  eq_of_beq := Json.eq_of_beq
  rfl := Json.beq_refl _

instance : DecidableEq Json := fun a b =>
  if h : Json.beq a b = true then isTrue (Json.eq_of_beq h)
  else isFalse (fun q => h (q ▸ Json.beq_refl a))

/-- The Python exceptions the handlers in app.py raise and catch. -/
inductive PyError where
  | keyError (k : String) : PyError
  | typeError : PyError
  | valueError (msg : String) : PyError
  | indexError : PyError
  | jsonDecodeError : PyError
deriving DecidableEq

/-- Python dictionary indexing `data[k]` on a parsed JSON value: a lookup on
an object, `KeyError` when the key is absent, `TypeError` when the value is
not a dictionary. -/
def dictGet : Json → String → Except PyError Json
  | .obj fields, k =>
      match fields.lookup k with
      | some v => .ok v
      | none => .error (.keyError k)
  | _, _ => .error .typeError

/-- Iterated dictionary indexing `data[k1][k2]...`. -/
def dictPath : Json → List String → Except PyError Json
  | j, [] => .ok j
  | j, k :: ks => do dictPath (← dictGet j k) ks

/-- Python list indexing `xs[i]` (nonnegative index) on a parsed JSON value:
`IndexError` past the end, `TypeError` on a non-list.  (Indexing into JSON
strings is outside the model; the projection payloads index arrays.) -/
def pyIndex : Json → Nat → Except PyError Json
  | .arr xs, i =>
      match xs.get? i with
      | some v => .ok v
      | none => .error .indexError
  | _, _ => .error .typeError

/-- Python `len` on a parsed JSON value. -/
def pyLen : Json → Except PyError Nat
  | .arr xs => .ok xs.length
  | .str s => .ok s.length
  | .obj fs => .ok fs.length
  | _ => .error .typeError

/-! ### `format_salary` (src/app.py lines 35-39)

`format_salary` is `"${:,.2f}".format(float(salary))` guarded by
`except (ValueError, TypeError): return "N/A"`.  Inputs are modelled by
`PyVal`; exact decimal amounts are scaled to cents. -/

/-- A value fed to `format_salary`: Python `None`, a number (an exact
amount in cents), or a string. -/
inductive PyVal where
  | none : PyVal
  | num (cents : Int) : PyVal
  | str (s : String) : PyVal
deriving DecidableEq

/-- The decimal digit character for `m < 10`. -/
def digitChar (m : Nat) : Char := Char.ofNat (48 + m)

/-- Base-10 digit characters of `n`, most significant first; the first
argument is recursion fuel (`n` itself is always enough). -/
def natDigitsAux : Nat → Nat → List Char
  | 0, _ => []
  | fuel + 1, n => if n = 0 then [] else natDigitsAux fuel (n / 10) ++ [digitChar (n % 10)]

/-- Decimal representation of a natural number as a character list. -/
def natDigits (n : Nat) : List Char := if n = 0 then ['0'] else natDigitsAux n n

/-- Split a character list into groups of three, left to right. -/
def chunk3 : List Char → List (List Char)
  | [] => []
  | [a] => [[a]]
  | [a, b] => [[a, b]]
  | a :: b :: c :: rest => [a, b, c] :: chunk3 rest

/-- Join character groups with a comma between consecutive groups. -/
def joinComma : List (List Char) → List Char
  | [] => []
  | [g] => g
  | g :: gs => g ++ ',' :: joinComma gs

/-- Insert thousands separators into a digit string, grouping by three from
the right (the `,` option of Python format specifications). -/
def commaGroup (ds : List Char) : List Char :=
  joinComma (((chunk3 ds.reverse).map List.reverse).reverse)

/-- Exactly two decimal digits for the cents part (`m < 100` in use). -/
def twoDigitChars (m : Nat) : List Char :=
  if m < 10 then ['0', digitChar m] else natDigits m

/-- The characters of `"{:,.2f}".format` applied to a nonnegative amount of
`n` cents: grouped dollars, a point, two cent digits. -/
def formatCentsChars (n : Nat) : List Char :=
  commaGroup (natDigits (n / 100)) ++ '.' :: twoDigitChars (n % 100)

/-- `"{:,.2f}".format` on an exact amount of `c` cents. -/
def formatCents (c : Int) : String :=
  if c < 0 then String.mk ('-' :: formatCentsChars c.natAbs)
  else String.mk (formatCentsChars c.toNat)

/-- Strip leading and trailing whitespace (Python `float` ignores it). -/
def trimChars (cs : List Char) : List Char :=
  ((cs.dropWhile Char.isWhitespace).reverse.dropWhile Char.isWhitespace).reverse

/-- Numeric value of a digit-character list, most significant first. -/
def digitsToNat (cs : List Char) : Nat :=
  cs.foldl (fun a c => a * 10 + (c.toNat - 48)) 0

/-- Round `n / 10 ^ k` to the nearest integer, ties to even (the rounding
of Python `format` beyond two decimals). -/
def roundAtPow10 (n k : Nat) : Nat :=
  let d := 10 ^ k
  let q := n / d
  let r := n % d
  if 2 * r > d then q + 1 else if 2 * r < d then q else q + q % 2

/-- Parse an unsigned decimal literal into cents: digits with an optional
decimal point, as accepted by Python `float` (exponents, `inf`, `nan` and
underscore separators are outside the model). -/
def parseUnsignedCents (cs : List Char) : Option Nat :=
  let ip := cs.takeWhile (fun c => c != '.')
  let rest := cs.drop ip.length
  match rest with
  | [] =>
      if ip.isEmpty || !ip.all Char.isDigit then Option.none
      else some (digitsToNat ip * 100)
  | _ :: fp =>
      if !ip.all Char.isDigit || !fp.all Char.isDigit || (ip.isEmpty && fp.isEmpty) then
        Option.none
      else if fp.length ≤ 2 then
        some (digitsToNat (ip ++ fp) * 10 ^ (2 - fp.length))
      else
        some (roundAtPow10 (digitsToNat (ip ++ fp)) (fp.length - 2))

/-- Parse an optionally signed decimal literal into cents. -/
def parseSignedCents : List Char → Option Int
  | '-' :: rest => (parseUnsignedCents rest).map (fun n => -(n : Int))
  | '+' :: rest => (parseUnsignedCents rest).map (fun n => (n : Int))
  | cs => (parseUnsignedCents cs).map (fun n => (n : Int))

/-- Python `float` applied to a string, in cents; `Option.none` models the
`ValueError` a non-numeric string raises. -/
def parseFloatCents (s : String) : Option Int :=
  parseSignedCents (trimChars s.toList)

/-- Python `float` applied to a `PyVal`; `Option.none` models the
`ValueError` / `TypeError` branch. -/
def pyFloatCents : PyVal → Option Int
  | .none => Option.none
  | .num c => some c
  | .str s => parseFloatCents s

/-- src/app.py lines 35-39: `format_salary`. -/
def format_salary (salary : PyVal) : String :=
  match pyFloatCents salary with
  | some c => "$" ++ formatCents c
  | Option.none => "N/A"

/-! ### Wage lookup (src/app.py lines 135-142)

The code filters the occupation-wage dataframe on `AREA_TITLE` and
`OCC_TITLE`, takes `['A_MEAN'].iloc[0]`, and catches `IndexError` with
`formatted_salary = "N/A"`. -/

/-- One row of `msa_occ_wage_only_3columns.csv` as loaded by pandas. -/
structure WageRow where
  area_title : String
  occ_title : String
  a_mean : PyVal
deriving DecidableEq

/-- The filtered `['A_MEAN'].iloc[0]` access: the first matching A_MEAN
value, `Option.none` modelling the `IndexError` on an empty selection. -/
def wageLookup (df_occ : List WageRow) (area occupation : String) : Option PyVal :=
  ((df_occ.filter fun r => r.area_title == area && r.occ_title == occupation).map
    fun r => r.a_mean).head?

/-- src/app.py lines 135-142: the value bound to `formatted_salary`. -/
def salaryDisplayed (df_occ : List WageRow) (area occupation : String) : String :=
  match wageLookup df_occ area occupation with
  | some v => format_salary v
  | Option.none => "N/A"

/-! ### Revision-payload validation (src/app.py lines 49-98) -/

/-- The top-level keys of `required_keys` in insertion order (the nested
sets attached to them are never inspected by the code). -/
def requiredTopKeys : List String := ["revisedExplanation", "comparison"]

/-- src/app.py lines 49-65: `validate_json_structure`, a key-presence test
over a parsed dictionary (`all(key in data for key in required_keys)`). -/
def validate_json_structure (data : List (String × Json)) : Bool :=
  requiredTopKeys.all fun k => (data.lookup k).isSome

/-- src/app.py lines 67-86: `format_revised_projection`.  On an invalid
structure it raises `ValueError`; otherwise it builds the projection
dictionary, re-raising the `KeyError` of any missing breakdown key (the
`years` list is the hard-coded `list(range(1, 16))`). -/
def format_revised_projection (original_data revised_data : List (String × Json)) :
    Except PyError Json :=
  if !validate_json_structure revised_data then
    .error (.valueError "Invalid revised projection structure")
  else do
    let yb ← dictGet (Json.obj revised_data) "4. YEARLY BREAKDOWN"
    let nw ← dictGet yb "netWorthProgression"
    let inc ← dictGet yb "incomeProgression"
    let ex ← dictGet yb "expenseProgression"
    let tot ← dictGet yb "totalNetWorth"
    let peak ← dictGet yb "peakNetWorth"
    let avg ← dictGet yb "averageGrowth"
    return Json.obj [
      ("data", Json.obj [
        ("years", Json.arr ((List.range' 1 15).map fun n => Json.num (Int.ofNat n))),
        ("netWorth", nw), ("income", inc), ("expenses", ex)]),
      ("summary", Json.obj [
        ("totalNetWorth", tot), ("peakNetWorth", peak), ("averageGrowth", avg)])]

/-- The message of both `ValueError`s of the pre-transition loop. -/
def preTransitionMsg : String := "Pre-transition data should match original projection"

/-- The message of the year-range `ValueError` (paraphrased without the
apostrophe of the source text). -/
def yearRangesMsg : String := "Year ranges do not match between projections"

/-- One access `p["data"][field][i]` of the pre-transition loop. -/
def vpIndexOf (p : Json) (field : String) (i : Nat) : Except PyError Json := do
  pyIndex (← dictPath p ["data", field]) i

/-- The body of iteration `i` of the loop in `validate_projection_data`:
net worth entries are read and compared first, income entries only when the
net worth entries agree (Python `or` short-circuits). -/
def vpCheckAt (original_data revised_data : Json) (i : Nat) : Except PyError Unit := do
  let a ← vpIndexOf original_data "netWorth" i
  let b ← vpIndexOf revised_data "netWorth" i
  if a ≠ b then Except.error (PyError.valueError preTransitionMsg)
  else do
    let c ← vpIndexOf original_data "income" i
    let d ← vpIndexOf revised_data "income" i
    if c ≠ d then Except.error (PyError.valueError preTransitionMsg)
    else Except.ok ()

/-- `for i in range(transition_year - 1)`, starting at `i` with `k`
iterations left. -/
def vpLoop (original_data revised_data : Json) : Nat → Nat → Except PyError Bool
  | _, 0 => Except.ok true
  | i, k + 1 => do
      vpCheckAt original_data revised_data i
      vpLoop original_data revised_data (i + 1) k

/-- src/app.py lines 88-98: `validate_projection_data`. -/
def validate_projection_data (original_data revised_data : Json) (transition_year : Nat) :
    Except PyError Bool := do
  let oy ← dictPath original_data ["data", "years"]
  let ry ← dictPath revised_data ["data", "years"]
  let ol ← pyLen oy
  let rl ← pyLen ry
  if ol ≠ rl then Except.error (PyError.valueError yearRangesMsg)
  else vpLoop original_data revised_data 0 (transition_year - 1)

/-! ### Completion client (src/app.py lines 21-33, src/app2.py lines 19-28) -/

/-- Failures of the external completion endpoint (the anthropic / openai
client exceptions: connectivity, authentication, quota, other API error). -/
inductive ApiError where
  | connectionError : ApiError
  | authenticationError : ApiError
  | rateLimitError : ApiError
  | apiError (msg : String) : ApiError
deriving DecidableEq

/-- Rendering of an `ApiError` inside an f-string. -/
def apiErrorText : ApiError → String
  | .connectionError => "Connection error."
  | .authenticationError => "Authentication failed."
  | .rateLimitError => "Rate limit exceeded."
  | .apiError msg => msg

/-- Things the handlers push to the page: `st.error` boxes and `st.write`
output (Streamlit writes nothing for `None`). -/
inductive Display where
  | errorBox (msg : String) : Display
  | writeText (v : Option String) : Display
deriving DecidableEq

/-- src/app.py lines 21-33: `query_claude_3_5`, as a function of the
outcome of the `client.messages.create` call for the given prompt.  The
`except Exception` arm displays an inline error and returns `None`; the
function itself never raises. -/
def query_claude_3_5 (service : String → Except ApiError String) (prompt : String) :
    Option String × List Display :=
  match service prompt with
  | .ok t => (some t, [])
  | .error e => (Option.none, [Display.errorBox ("API call failed: " ++ apiErrorText e)])

/-- src/app2.py lines 19-28: `query_llm`.  The `try:` block of the source
has no `except` clause (the file breaks off inside the function), so the
outcome of `client.chat.completions.create(model=model_name, ...)` — and in
particular any exception it raises — passes straight to the caller. -/
def query_llm (service : String → String → Except ApiError String)
    (prompt model_name : String) : Except ApiError String :=
  service model_name prompt

/-! ### Session state and stage handlers (src/app.py `main`) -/

/-- The `st.session_state` slots app.py initialises and mutates.  The two
response slots start as `some ""` (the code initialises them to `""`) and
become `Option.none` when a handler stores the `None` a failed query
returns. -/
structure SessState where
  explanation_response : Option String
  chart_response : Option String
  additional_step : Nat
  show_transition : Bool
  responses_history : List (String × String)
  current_projection : Option Json
deriving DecidableEq

/-- src/app.py lines 192-197: the Get Explanation handler.  It stores the
query result in `explanation_response` unconditionally, writes it to the
page, and appends it to the output log (logging is outside the model). -/
def explanationStage (service : String → Except ApiError String) (prompt : String)
    (st : SessState) : SessState × List Display :=
  let r := query_claude_3_5 service prompt
  ({ st with explanation_response := r.1 }, r.2 ++ [Display.writeText r.1])

/-- The pieces of the chart the Show Chart handler hands to plotly and
`st.metric`: the four series values and the three formatted summary
metrics. -/
structure RenderedChart where
  years : Json
  netWorth : Json
  income : Json
  expenses : Json
  totalNetWorth : Int
  peakNetWorth : Int
  averageGrowth : Int
deriving DecidableEq

/-- A value interpolated with the `:,.0f` format specification must be a
number; anything else raises (`TypeError`/`ValueError`, both caught by the
same handler arm). -/
def fmtMetricNum : Json → Except PyError Int
  | .num n => .ok n
  | _ => .error .typeError

/-- src/app.py lines 231-281: the body of the `try` block of the Show
Chart handler, as a function of the parsed payload.  Key accesses mirror
the code in source order; no array length is ever inspected (plotly traces
accept the series values as given). -/
def renderChartPayload (payload : Json) : Except PyError RenderedChart := do
  let years ← dictPath payload ["data", "years"]
  let nw ← dictPath payload ["data", "netWorth"]
  let inc ← dictPath payload ["data", "income"]
  let ex ← dictPath payload ["data", "expenses"]
  let tot ← fmtMetricNum (← dictPath payload ["summary", "totalNetWorth"])
  let peak ← fmtMetricNum (← dictPath payload ["summary", "peakNetWorth"])
  let avg ← fmtMetricNum (← dictPath payload ["summary", "averageGrowth"])
  return ⟨years, nw, inc, ex, tot, peak, avg⟩

/-- Whether an `Except` computation succeeded. -/
def isOkE {ε α : Type} : Except ε α → Bool
  | .ok _ => true
  | .error _ => false

/-- A chart payload of the shape the chart prompt requests, with the given
series arrays and summary numbers. -/
def mkChartPayload (years netWorth income expenses : List Json)
    (tot peak avg : Int) : Json :=
  Json.obj [
    ("data", Json.obj [
      ("years", Json.arr years), ("netWorth", Json.arr netWorth),
      ("income", Json.arr income), ("expenses", Json.arr expenses)]),
    ("summary", Json.obj [
      ("totalNetWorth", Json.num tot), ("peakNetWorth", Json.num peak),
      ("averageGrowth", Json.num avg)])]

/-- The schema the specification requires of a chart payload: `data.years`
exactly the 15 increasing integers 1..15 and the three parallel arrays of
length 15.  (Stated from the specification, for comparison with what
`renderChartPayload` actually accepts.) -/
def chartLengthsOk (payload : Json) : Bool :=
  match dictPath payload ["data", "years"], dictPath payload ["data", "netWorth"],
      dictPath payload ["data", "income"], dictPath payload ["data", "expenses"] with
  | .ok (Json.arr ys), .ok (Json.arr nw), .ok (Json.arr inc), .ok (Json.arr ex) =>
      (ys == (List.range' 1 15).map fun n => Json.num (Int.ofNat n)) &&
        nw.length == 15 && inc.length == 15 && ex.length == 15
  | _, _, _, _ => false

/-- The in-order pairing of `impact.changes` with `impact.financialEffect`
performed by `zip` in the Revise Projection handler (src/app.py lines
425-430); pairing stops at the shorter list and never fails. -/
def impactPairs (changes financialEffect : List Json) : List (Json × Json) :=
  changes.zip financialEffect

/-- The value `zip` iterates must be a list in the model (the payload
arrays). -/
def asJsonList : Json → Except PyError (List Json)
  | .arr xs => .ok xs
  | _ => .error .typeError

/-- The traces and impact lines the Revise Projection handler draws. -/
structure ReviseRendered where
  years : Json
  originalNetWorth : Json
  revisedNetWorth : Json
  originalIncome : Json
  revisedIncome : Json
  originalExpenses : Json
  revisedExpenses : Json
  impactLines : List (Json × Json)
deriving DecidableEq

/-- src/app.py lines 377-430: the chart-building part of the `try` block of
the Revise Projection handler, as a function of the revised and original
payloads, with key accesses in source order.  No call to
`validate_json_structure` or `format_revised_projection` occurs on this
path. -/
def reviseRender (revised_data original_data : Json) : Except PyError ReviseRendered := do
  let years ← dictPath original_data ["data", "years"]
  let onw ← dictPath original_data ["data", "netWorth"]
  let rnw ← dictPath revised_data ["data", "netWorth"]
  let oin ← dictPath original_data ["data", "income"]
  let rin ← dictPath revised_data ["data", "income"]
  let oex ← dictPath original_data ["data", "expenses"]
  let rex ← dictPath revised_data ["data", "expenses"]
  let chs ← asJsonList (← dictPath revised_data ["impact", "changes"])
  let efs ← asJsonList (← dictPath revised_data ["impact", "financialEffect"])
  return ⟨years, onw, rnw, oin, rin, oex, rex, impactPairs chs efs⟩

/-- Outcome of the Revise Projection handler: either a rendered comparison
or an inline error (`st.error`) from one of the two `except` arms. -/
inductive ReviseOutcome where
  | rendered (r : ReviseRendered) : ReviseOutcome
  | errorShown (e : PyError) : ReviseOutcome
deriving DecidableEq

/-- src/app.py lines 375-438: the `try`/`except` of the Revise Projection
handler, as a function of the `json.loads` outcomes for the revised
response and the stored `chart_response`.  On success it stores the revised
payload in `current_projection`; on any error it shows an inline error and
leaves the state unchanged. -/
def reviseStage (revisedParse originalParse : Except PyError Json) (st : SessState) :
    SessState × ReviseOutcome :=
  match (do
      let rd ← revisedParse
      let od ← originalParse
      let rr ← reviseRender rd od
      Except.ok (rd, rr) : Except PyError (Json × ReviseRendered)) with
  | .ok (rd, rr) => ({ st with current_projection := some rd }, ReviseOutcome.rendered rr)
  | .error e => (st, ReviseOutcome.errorShown e)

/-! ### Action reachability (src/app.py `main` page structure) -/

/-- The button-triggered actions of the page. -/
inductive UiAction where
  | getExplanation : UiAction
  | showChart : UiAction
  | generatePlans : UiAction
  | nextStep : UiAction
  | reviseProjection : UiAction
  | changePath : UiAction
  | calculateTransition : UiAction
deriving DecidableEq

/-- Python truthiness of a stored response slot: `None` and `""` are
falsy. -/
def truthy : Option String → Bool
  | Option.none => false
  | some s => !s.isEmpty

/-- `len(additional_variables)` in src/app.py (seven questions). -/
def additionalVariablesCount : Nat := 7

/-- The buttons a rerun of `main` displays in the given session state,
mirroring the nesting of `if` blocks in src/app.py lines 192-475: Show
Chart requires a truthy `explanation_response`, Generate Recommended Plans
a truthy `chart_response`, and the preference-step buttons only
`0 < additional_step <= 7` (plus `show_transition` for the transition
calculation). -/
def visibleActions (st : SessState) : List UiAction :=
  [UiAction.getExplanation] ++
  (if truthy st.explanation_response then [UiAction.showChart] else []) ++
  (if truthy st.chart_response then [UiAction.generatePlans] else []) ++
  [UiAction.nextStep] ++
  (if 0 < st.additional_step ∧ st.additional_step ≤ additionalVariablesCount then
    [UiAction.reviseProjection, UiAction.changePath] ++
      (if st.show_transition then [UiAction.calculateTransition] else [])
  else [])

/-- The gating property the specification asserts of a state: every
pipeline action past the first is displayed only when the response of the
stage before it is present and non-empty (Show Chart after the explanation;
plans, revision, path change and transition after the chart). -/
def stageGatingClaim (st : SessState) : Prop :=
  (UiAction.showChart ∈ visibleActions st → truthy st.explanation_response = true) ∧
  (UiAction.generatePlans ∈ visibleActions st → truthy st.chart_response = true) ∧
  (UiAction.reviseProjection ∈ visibleActions st → truthy st.chart_response = true) ∧
  (UiAction.changePath ∈ visibleActions st → truthy st.chart_response = true) ∧
  (UiAction.calculateTransition ∈ visibleActions st → truthy st.chart_response = true)

/-! ### Helper lemmas -/

theorem zipPairAt {α β : Type} : ∀ (xs : List α) (ys : List β) (i : Nat)
    (hx : i < xs.length) (hy : i < ys.length),
    (xs.zip ys).get? i = some (xs.get ⟨i, hx⟩, ys.get ⟨i, hy⟩) := by
  intro xs ys i hx hy
  rw [List.get?_zip_eq_some]
  exact ⟨List.get?_eq_get hx, List.get?_eq_get hy⟩

theorem chunk3_join : ∀ cs : List Char, (chunk3 cs).join = cs
  | [] => rfl
  | [a] => rfl
  | [a, b] => rfl
  | a :: b :: c :: rest => by simp [chunk3, chunk3_join rest]

theorem chunk3_sub : ∀ (cs g : List Char), g ∈ chunk3 cs → ∀ c ∈ g, c ∈ cs
  | [], g, hg => by simp [chunk3] at hg
  | [a], g, hg => by
      simp [chunk3] at hg
      simp [hg]
  | [a, b], g, hg => by
      simp [chunk3] at hg
      simp [hg]
  | a :: b :: c :: rest, g, hg => by
      simp only [chunk3, List.mem_cons] at hg
      rcases hg with hg | hg
      · subst hg
        intro x hx
        simp only [List.mem_cons] at hx ⊢
        tauto
      · intro x hx
        have := chunk3_sub rest g hg x hx
        simp [this]

theorem revMapRev_join : ∀ M : List (List Char),
    ((M.map List.reverse).reverse).join = M.join.reverse
  | [] => rfl
  | g :: M => by
      simp only [List.map_cons, List.reverse_cons, List.join_append, List.join_cons,
        List.reverse_append]
      simp [revMapRev_join M]

theorem filter_joinComma : ∀ gs : List (List Char), (∀ g ∈ gs, ',' ∉ g) →
    (joinComma gs).filter (fun c => c != ',') = gs.join
  | [], _ => rfl
  | [g], h => by
      simp only [joinComma, List.join]
      rw [List.filter_eq_self.mpr]
      · simp
      · intro c hc
        simp only [bne_iff_ne, ne_eq, decide_eq_true_eq]
        exact fun q => h g (by simp) (q ▸ hc)
  | g :: g2 :: gs, h => by
      have htail := filter_joinComma (g2 :: gs) (fun x hx => h x (List.mem_cons_of_mem _ hx))
      simp only [joinComma, List.filter_append, List.filter_cons]
      rw [List.filter_eq_self.mpr]
      · simp only [List.join_cons]
        have hcomma : ((',' : Char) != ',') = false := by decide
        simp [hcomma, htail, joinComma]
      · intro c hc
        simp only [bne_iff_ne, ne_eq, decide_eq_true_eq]
        exact fun q => h g (by simp) (q ▸ hc)

theorem commaGroup_filter (ds : List Char) (h : ',' ∉ ds) :
    (commaGroup ds).filter (fun c => c != ',') = ds := by
  unfold commaGroup
  rw [filter_joinComma]
  · rw [revMapRev_join, chunk3_join, List.reverse_reverse]
  · intro g hg hcg
    rw [List.mem_reverse, List.mem_map] at hg
    rcases hg with ⟨g0, hg0, rfl⟩
    rw [List.mem_reverse] at hcg
    have := chunk3_sub ds.reverse g0 hg0 ',' hcg
    rw [List.mem_reverse] at this
    exact h this

theorem digitChar_ne_comma : ∀ m : Nat, m < 10 → digitChar m ≠ ',' := by
  intro m hm
  interval_cases m <;> decide

theorem natDigitsAux_chars : ∀ (fuel n : Nat), ∀ c ∈ natDigitsAux fuel n,
    ∃ m, m < 10 ∧ c = digitChar m
  | 0, n => by simp [natDigitsAux]
  | fuel + 1, n => by
      intro c hc
      simp only [natDigitsAux] at hc
      split at hc
      · simp at hc
      · rcases List.mem_append.mp hc with hmem | hmem
        · exact natDigitsAux_chars fuel (n / 10) c hmem
        · simp only [List.mem_singleton] at hmem
          exact ⟨n % 10, Nat.mod_lt _ (by norm_num), hmem⟩

theorem natDigits_no_comma : ∀ n : Nat, ',' ∉ natDigits n := by
  intro n hc
  unfold natDigits at hc
  split at hc
  · simp at hc
  · rcases natDigitsAux_chars n n ',' hc with ⟨m, hm, hcm⟩
    exact digitChar_ne_comma m hm hcm.symm

theorem twoDigitChars_no_comma : ∀ m : Nat, ',' ∉ twoDigitChars m := by
  intro m hc
  unfold twoDigitChars at hc
  split at hc
  · simp only [List.mem_cons, List.mem_singleton] at hc
    rcases hc with hc | hc
    · exact absurd hc (by decide)
    · rcases hc with hc | hc
      · exact digitChar_ne_comma m (by omega) hc.symm
      · simp at hc
  · exact natDigits_no_comma m hc

/-! ### Claim theorems -/

/-- C6: for every pair of `impact.changes` and `impact.financialEffect`
arrays, including unequal lengths, the Revise Projection handler pairs
entries in order only up to the length of the shorter array — exactly
`min` of the two lengths pairs, the `i`-th pair being the `i`-th entries of
the two arrays — and the pairing is a total function (no crash). -/
theorem C6_impact_pairing :
    ∀ (changes financialEffect : List Json),
      (impactPairs changes financialEffect).length =
        min changes.length financialEffect.length ∧
      ∀ (i : Nat) (hc : i < changes.length) (he : i < financialEffect.length),
        (impactPairs changes financialEffect).get? i =
          some (changes.get ⟨i, hc⟩, financialEffect.get ⟨i, he⟩) := by
  intro cs es
  constructor
  · simpa [impactPairs] using List.length_zip cs es
  · intro i hc he
    simpa [impactPairs] using zipPairAt cs es i hc he

/-- Witness for C6 at a concrete unequal-length pair: three changes and
two effects yield exactly two pairs, the second pairing the second
entries. -/
theorem C6_impact_pairing_witness :
    (impactPairs [Json.str "a", Json.str "b", Json.str "c"]
        [Json.str "x", Json.str "y"]).length = min 3 2 ∧
    (impactPairs [Json.str "a", Json.str "b", Json.str "c"]
        [Json.str "x", Json.str "y"]).get? 1 = some (Json.str "b", Json.str "y") := by
  have h := C6_impact_pairing [Json.str "a", Json.str "b", Json.str "c"]
    [Json.str "x", Json.str "y"]
  exact ⟨h.1, h.2 1 (by decide) (by decide)⟩

/-- C7: `format_salary` renders 1234.5 (exactly 123450 cents) as
`"$1,234.50"` — both as a number and as the string `"1234.5"` — returns
exactly `"N/A"` on the non-numeric string `"abc"` and on every string the
float conversion rejects, and in general renders a numeric input as a
two-decimal amount with thousands separators: erasing the separators from
the formatted characters leaves the plain decimal digits of the dollar
part, a point, and the two cent digits. -/
theorem C7_format_salary_contract :
    format_salary (PyVal.num 123450) = "$1,234.50" ∧
    format_salary (PyVal.str "1234.5") = "$1,234.50" ∧
    format_salary (PyVal.str "abc") = "N/A" ∧
    (∀ s : String, parseFloatCents s = Option.none → format_salary (PyVal.str s) = "N/A") ∧
    (∀ n : Nat, (formatCentsChars n).filter (fun c => c != ',') =
      natDigits (n / 100) ++ '.' :: twoDigitChars (n % 100)) := by
  refine ⟨by decide, by decide, by decide, ?_, ?_⟩
  · intro s hs
    simp [format_salary, pyFloatCents, hs]
  · intro n
    unfold formatCentsChars
    rw [List.filter_append, commaGroup_filter _ (natDigits_no_comma _), List.filter_cons]
    have hdot : (('.' : Char) != ',') = true := by decide
    rw [List.filter_eq_self.mpr]
    · simp [hdot]
    · intro c hc
      simp only [bne_iff_ne, ne_eq, decide_eq_true_eq]
      exact fun q => twoDigitChars_no_comma _ (q ▸ hc)

/-- Witness for C7 at the concrete rejected string `"xyz"`. -/
theorem C7_format_salary_contract_witness :
    format_salary (PyVal.str "xyz") = "N/A" :=
  C7_format_salary_contract.2.2.2.1 "xyz" (by decide)

/-- C8: when no row of the wage table matches the selected (area,
occupation) pair, the `iloc[0]` lookup yields the not-found value rather
than an uncaught exception, and the displayed salary is exactly the
placeholder `"N/A"`. -/
theorem C8_wage_lookup_miss :
    ∀ (df : List WageRow) (area occupation : String),
      (∀ r ∈ df, ¬(r.area_title = area ∧ r.occ_title = occupation)) →
      wageLookup df area occupation = Option.none ∧
      salaryDisplayed df area occupation = "N/A" := by
  intro df area occ h
  have hf : df.filter (fun r => r.area_title == area && r.occ_title == occ) = [] := by
    rw [List.filter_eq_nil]
    intro r hr
    simp only [Bool.and_eq_true, beq_iff_eq]
    exact fun hcon => h r hr hcon
  refine ⟨?_, ?_⟩
  · simp [wageLookup, hf]
  · simp [salaryDisplayed, wageLookup, hf]

/-- Witness for C8: a one-row table probed with a pair it does not
contain. -/
theorem C8_wage_lookup_miss_witness :
    wageLookup [⟨"Los Angeles", "Registered Nurses", PyVal.num 12345000⟩]
      "San Francisco" "Teachers" = Option.none ∧
    salaryDisplayed [⟨"Los Angeles", "Registered Nurses", PyVal.num 12345000⟩]
      "San Francisco" "Teachers" = "N/A" :=
  C8_wage_lookup_miss [⟨"Los Angeles", "Registered Nurses", PyVal.num 12345000⟩]
    "San Francisco" "Teachers" (by decide)

/-- A session in which an explanation is already stored. -/
def c2State : SessState := ⟨some "previous explanation", some "", 0, false, [], Option.none⟩

/-- C2 counterexample: after a failed completion call, the Get Explanation
handler does not keep `explanation_response` at its previous value — it
overwrites it (with the `None` the failed query returns). -/
theorem C2_counterexample :
    (explanationStage (fun _ => Except.error ApiError.connectionError) "prompt"
        c2State).1.explanation_response ≠ c2State.explanation_response := by
  decide

/-- C2 (amended): on every completion-service failure during the
explanation stage an inline error is displayed and no exception escapes
the handler (it is a total function into a state and a display list), but
the stored explanation is overwritten with the failure value `None` rather
than kept at its previous value; every other session slot is unchanged. -/
theorem C2_failure_overwrites_explanation :
    ∀ (service : String → Except ApiError String) (prompt : String)
      (st : SessState) (e : ApiError),
      service prompt = Except.error e →
      (explanationStage service prompt st).1.explanation_response = Option.none ∧
      (explanationStage service prompt st).2 =
        [Display.errorBox ("API call failed: " ++ apiErrorText e),
          Display.writeText Option.none] ∧
      (explanationStage service prompt st).1.chart_response = st.chart_response ∧
      (explanationStage service prompt st).1.additional_step = st.additional_step ∧
      (explanationStage service prompt st).1.show_transition = st.show_transition ∧
      (explanationStage service prompt st).1.responses_history = st.responses_history ∧
      (explanationStage service prompt st).1.current_projection = st.current_projection := by
  intro service prompt st e h
  simp [explanationStage, query_claude_3_5, h]

/-- Witness for C2 (amended) at a concrete failing service. -/
theorem C2_failure_overwrites_explanation_witness :
    (explanationStage (fun _ => Except.error ApiError.connectionError) "prompt"
        c2State).1.explanation_response = Option.none :=
  (C2_failure_overwrites_explanation (fun _ => Except.error ApiError.connectionError)
    "prompt" c2State ApiError.connectionError rfl).1

/-- C4: `query_claude_3_5` (app.py) always hands its caller a definite
value — text on success, `None` plus an inline error on failure — but
`query_llm` (app2.py), whose `try` block has no `except` clause, forwards
the service outcome unchanged, so a service exception (here an
authentication failure) propagates to the caller instead of being returned
as an explicit failure value. -/
theorem C4_completion_client_boundary :
    (∀ (service : String → Except ApiError String) (prompt : String),
      (∃ t, query_claude_3_5 service prompt = (some t, [])) ∨
      (∃ e, query_claude_3_5 service prompt =
        (Option.none, [Display.errorBox ("API call failed: " ++ apiErrorText e)]))) ∧
    query_llm (fun _ _ => Except.error ApiError.authenticationError) "prompt" "gpt-4o-mini"
      = Except.error ApiError.authenticationError := by
  constructor
  · intro service prompt
    cases h : service prompt with
    | ok t => exact Or.inl ⟨t, by simp [query_claude_3_5, h]⟩
    | error e => exact Or.inr ⟨e, by simp [query_claude_3_5, h]⟩
  · rfl

/-- The 15 year numbers 1..15 as JSON values. -/
def nums15 : List Json := (List.range' 1 15).map fun n => Json.num (Int.ofNat n)

/-- A 14-entry series (the truncation of the claim). -/
def nums14 : List Json := (List.range' 1 14).map fun n => Json.num (Int.ofNat n)

/-- A chart payload with correct years but `netWorth` truncated to 14
entries. -/
def truncatedChartPayload : Json :=
  mkChartPayload nums15 nums14 nums15 nums15 100000 250000 12000

/-- C1 counterexample: the Show Chart handler accepts and renders a payload
whose `netWorth` array is truncated to 14 entries; the required 15-element
schema check the claim describes does not happen. -/
theorem C1_counterexample :
    isOkE (renderChartPayload truncatedChartPayload) = true ∧
    chartLengthsOk truncatedChartPayload = false := by
  decide

/-- C1 (amended): the chart stage validates only the presence (and, for
the summary metrics, numeric type) of the required keys: a payload of the
requested shape renders whatever the lengths of its four arrays, so
acceptance is not restricted to 15-element arrays and a truncated array is
still rendered. -/
theorem C1_no_length_validation :
    ∀ (years netWorth income expenses : List Json) (tot peak avg : Int),
      renderChartPayload (mkChartPayload years netWorth income expenses tot peak avg) =
        Except.ok ⟨Json.arr years, Json.arr netWorth, Json.arr income, Json.arr expenses,
          tot, peak, avg⟩ := by
  intro years nw inc ex t p a
  rfl

/-- A session with empty responses but preference step 1. -/
def c5State : SessState := ⟨some "", some "", 1, false, [], Option.none⟩

/-- C5 counterexample: with both stored responses empty and the preference
step counter at 1, the Revise Projection button is displayed, so the
claimed rule — every later trigger reachable only when the prior stage
response is non-empty — fails at this state. -/
theorem C5_counterexample : ¬ stageGatingClaim c5State := by
  intro h
  exact absurd (h.2.2.1 (by decide)) (by decide)

/-- C5 (amended): Show Chart is displayed exactly when the explanation
response is truthy, and Generate Recommended Plans exactly when the chart
response is truthy; but Revise Projection and Change Career/Education Path
are displayed exactly when the preference step counter is between 1 and 7,
regardless of the stored responses, and Calculate Path Change Impact
additionally requires only the `show_transition` flag; Get Explanation and
Next Step are always displayed. -/
theorem C5_gating :
    ∀ st : SessState,
      (UiAction.showChart ∈ visibleActions st ↔ truthy st.explanation_response = true) ∧
      (UiAction.generatePlans ∈ visibleActions st ↔ truthy st.chart_response = true) ∧
      (UiAction.reviseProjection ∈ visibleActions st ↔
        (0 < st.additional_step ∧ st.additional_step ≤ additionalVariablesCount)) ∧
      (UiAction.changePath ∈ visibleActions st ↔
        (0 < st.additional_step ∧ st.additional_step ≤ additionalVariablesCount)) ∧
      (UiAction.calculateTransition ∈ visibleActions st ↔
        ((0 < st.additional_step ∧ st.additional_step ≤ additionalVariablesCount) ∧
          st.show_transition = true)) ∧
      UiAction.getExplanation ∈ visibleActions st ∧
      UiAction.nextStep ∈ visibleActions st := by
  intro st
  by_cases h1 : truthy st.explanation_response = true <;>
  by_cases h2 : truthy st.chart_response = true <;>
  by_cases h3 : 0 < st.additional_step ∧ st.additional_step ≤ additionalVariablesCount <;>
  by_cases h4 : st.show_transition = true <;>
  simp [visibleActions, h1, h2, h3, h4]

/-- Witness for C5 (amended): the button shown at `c5State`. -/
theorem C5_gating_witness : UiAction.reviseProjection ∈ visibleActions c5State :=
  (C5_gating c5State).2.2.1.mpr (by decide)

/-- A revision payload carrying chart data and impact notes but no
`comparison` key. -/
def c3RevisedFields : List (String × Json) :=
  [("data", Json.obj [
      ("netWorth", Json.arr [Json.num 5]),
      ("income", Json.arr [Json.num 6]),
      ("expenses", Json.arr [Json.num 7])]),
    ("impact", Json.obj [
      ("changes", Json.arr [Json.str "change"]),
      ("financialEffect", Json.arr [Json.str "effect"])])]

/-- A well-formed original chart payload. -/
def c3OriginalPayload : Json := mkChartPayload nums15 nums15 nums15 nums15 1 2 3

/-- A session holding a previously rendered projection slot. -/
def c3State : SessState := ⟨some "e", some "c", 1, false, [], Option.none⟩

/-- What the Revise Projection handler draws from `c3RevisedFields` against
`c3OriginalPayload`. -/
def c3Rendered : ReviseRendered :=
  ⟨Json.arr nums15, Json.arr nums15, Json.arr [Json.num 5], Json.arr nums15,
    Json.arr [Json.num 6], Json.arr nums15, Json.arr [Json.num 7],
    [(Json.str "change", Json.str "effect")]⟩

/-- C3 counterexample: a revision payload with no `comparison` key — which
`validate_json_structure` indeed rejects — still gets a comparison chart
drawn by the Revise Projection handler, and `current_projection` is
overwritten with it, because the handler never invokes the validation. -/
theorem C3_counterexample :
    c3RevisedFields.lookup "comparison" = Option.none ∧
    validate_json_structure c3RevisedFields = false ∧
    (reviseStage (Except.ok (Json.obj c3RevisedFields)) (Except.ok c3OriginalPayload)
        c3State).2 = ReviseOutcome.rendered c3Rendered ∧
    (reviseStage (Except.ok (Json.obj c3RevisedFields)) (Except.ok c3OriginalPayload)
        c3State).1.current_projection ≠ c3State.current_projection := by
  refine ⟨rfl, rfl, rfl, by decide⟩

/-- C3 (amended): for every revision payload lacking the `comparison` key,
`validate_json_structure` returns false and `format_revised_projection`
raises `ValueError` rather than returning a projection — but the Revise
Projection flow of `main` calls neither: whenever such a payload parses and
the handler's own key accesses succeed, the handler draws the comparison
chart and replaces `current_projection` with the new payload. -/
theorem C3_validation_unused :
    ∀ rfs : List (String × Json),
      rfs.lookup "comparison" = Option.none →
      validate_json_structure rfs = false ∧
      (∀ ofs : List (String × Json), format_revised_projection ofs rfs =
        Except.error (PyError.valueError "Invalid revised projection structure")) ∧
      (∀ (st : SessState) (od : Json) (rr : ReviseRendered),
        reviseRender (Json.obj rfs) od = Except.ok rr →
        (reviseStage (Except.ok (Json.obj rfs)) (Except.ok od) st).1.current_projection =
          some (Json.obj rfs) ∧
        (reviseStage (Except.ok (Json.obj rfs)) (Except.ok od) st).2 =
          ReviseOutcome.rendered rr) := by
  intro rfs hnone
  have hv : validate_json_structure rfs = false := by
    simp [validate_json_structure, requiredTopKeys, hnone]
  refine ⟨hv, ?_, ?_⟩
  · intro ofs
    simp [format_revised_projection, hv]
  · intro st od rr hr
    constructor <;> simp [reviseStage, hr, bind, Except.bind]

/-- Witness for C3 (amended) at the concrete payload and original chart. -/
theorem C3_validation_unused_witness :
    validate_json_structure c3RevisedFields = false ∧
    (reviseStage (Except.ok (Json.obj c3RevisedFields)) (Except.ok c3OriginalPayload)
        c3State).2 = ReviseOutcome.rendered c3Rendered :=
  ⟨(C3_validation_unused c3RevisedFields rfl).1,
    ((C3_validation_unused c3RevisedFields rfl).2.2 c3State c3OriginalPayload
      c3Rendered rfl).2⟩

/-- C9: every revised payload accepted by `format_revised_projection`
yields a projection whose `data.years` is exactly the sequence 1..15 —
length 15, strictly increasing, contiguous from 1 — regardless of what
years the input payload contained. -/
theorem C9_revised_years_invariant :
    ∀ (ofs rfs : List (String × Json)) (out : Json),
      format_revised_projection ofs rfs = Except.ok out →
      ∃ ys : List Int,
        dictPath out ["data", "years"] = Except.ok (Json.arr (ys.map Json.num)) ∧
        ys.length = 15 ∧ List.Pairwise (· < ·) ys ∧
        ∀ i : Nat, i < 15 → ys.get? i = some (Int.ofNat i + 1) := by
  intro ofs rfs out h
  refine ⟨(List.range' 1 15).map Int.ofNat, ?_, by decide, by decide, by decide⟩
  unfold format_revised_projection at h
  split at h
  · exact Except.noConfusion h
  · simp only [bind, Except.bind] at h
    split at h
    · exact Except.noConfusion h
    split at h
    · exact Except.noConfusion h
    split at h
    · exact Except.noConfusion h
    split at h
    · exact Except.noConfusion h
    split at h
    · exact Except.noConfusion h
    split at h
    · exact Except.noConfusion h
    split at h
    · exact Except.noConfusion h
    cases h
    rfl

/-- A revision payload with every key `format_revised_projection` reads. -/
def c9RevisedFields : List (String × Json) :=
  [("revisedExplanation", Json.null), ("comparison", Json.null),
    ("4. YEARLY BREAKDOWN", Json.obj [
      ("netWorthProgression", Json.arr [Json.num 1]),
      ("incomeProgression", Json.arr [Json.num 2]),
      ("expenseProgression", Json.arr [Json.num 3]),
      ("totalNetWorth", Json.num 4), ("peakNetWorth", Json.num 5),
      ("averageGrowth", Json.num 6)])]

/-- The projection `format_revised_projection` builds from
`c9RevisedFields`. -/
def c9Out : Json := Json.obj [
  ("data", Json.obj [
    ("years", Json.arr ((List.range' 1 15).map fun n => Json.num (Int.ofNat n))),
    ("netWorth", Json.arr [Json.num 1]), ("income", Json.arr [Json.num 2]),
    ("expenses", Json.arr [Json.num 3])]),
  ("summary", Json.obj [("totalNetWorth", Json.num 4), ("peakNetWorth", Json.num 5),
    ("averageGrowth", Json.num 6)])]

/-- Witness for C9 at a concrete accepted payload. -/
theorem C9_revised_years_invariant_witness :
    ∃ ys : List Int,
      dictPath c9Out ["data", "years"] = Except.ok (Json.arr (ys.map Json.num)) ∧
      ys.length = 15 ∧ List.Pairwise (· < ·) ys ∧
      ∀ i : Nat, i < 15 → ys.get? i = some (Int.ofNat i + 1) :=
  C9_revised_years_invariant [] c9RevisedFields c9Out rfl

/-- A projection payload carrying the keys `validate_projection_data`
reads. -/
def mkProjPayload (years netWorth income : List Json) : Json :=
  Json.obj [("data", Json.obj [
    ("years", Json.arr years), ("netWorth", Json.arr netWorth),
    ("income", Json.arr income)])]

/-- Whether the examined years arrays of both payloads exist and have equal
length (the condition of the claim, stated from the specification side). -/
def sameYearsLen (original_data revised_data : Json) : Bool :=
  match (do pyLen (← dictPath original_data ["data", "years"]) :
        Except PyError Nat),
      (do pyLen (← dictPath revised_data ["data", "years"]) : Except PyError Nat) with
  | .ok a, .ok b => a == b
  | _, _ => false

/-- Whether entry `i` of the given series exists in both payloads and
agrees (claim-side condition). -/
def agreeAt (original_data revised_data : Json) (field : String) (i : Nat) : Bool :=
  match vpIndexOf original_data field i, vpIndexOf revised_data field i with
  | .ok a, .ok b => a == b
  | _, _ => false

/-- Whether the pre-transition prefix of net worth and income agrees
(claim-side condition). -/
def agreeOnWindow (original_data revised_data : Json) (transition_year : Nat) : Bool :=
  (List.range (transition_year - 1)).all fun i =>
    agreeAt original_data revised_data "netWorth" i &&
      agreeAt original_data revised_data "income" i

/-- The C10 claim at one input: `validate_projection_data` returns `True`
exactly when the years lengths match and the pre-transition entries agree,
and in every other case raises `ValueError`. -/
def projectionClaimC10 (original_data revised_data : Json) (transition_year : Nat) : Prop :=
  (validate_projection_data original_data revised_data transition_year = Except.ok true ↔
    (sameYearsLen original_data revised_data &&
      agreeOnWindow original_data revised_data transition_year) = true) ∧
  ((sameYearsLen original_data revised_data &&
      agreeOnWindow original_data revised_data transition_year) = false →
    ∃ msg, validate_projection_data original_data revised_data transition_year =
      Except.error (PyError.valueError msg))

/-- Single-entry projections agreeing everywhere they are defined. -/
def c10Payload : Json := mkProjPayload [Json.num 1] [Json.num 0] [Json.num 0]

/-- C10 counterexample: with transition year 3 and single-entry series, the
loop indexes past the end of the arrays, so `validate_projection_data`
raises `IndexError` — not the `ValueError` the claim requires for every
non-matching input. -/
theorem C10_counterexample : ¬ projectionClaimC10 c10Payload c10Payload 3 := by
  intro hcl
  rcases hcl.2 (by decide) with ⟨msg, hmsg⟩
  have hval : validate_projection_data c10Payload c10Payload 3 =
      Except.error PyError.indexError := rfl
  rw [hval] at hmsg
  simp at hmsg

theorem vpCheckAt_mkProj :
    ∀ (oys rys onw rnw oinc rinc : List Json) (i : Nat),
      i < onw.length → i < rnw.length → i < oinc.length → i < rinc.length →
      ((vpCheckAt (mkProjPayload oys onw oinc) (mkProjPayload rys rnw rinc) i =
          Except.ok ()) ↔ (onw.get? i = rnw.get? i ∧ oinc.get? i = rinc.get? i)) ∧
      (vpCheckAt (mkProjPayload oys onw oinc) (mkProjPayload rys rnw rinc) i =
          Except.ok () ∨
        vpCheckAt (mkProjPayload oys onw oinc) (mkProjPayload rys rnw rinc) i =
          Except.error (PyError.valueError preTransitionMsg)) := by
  intro oys rys onw rnw oinc rinc i h1 h2 h3 h4
  have ha := List.get?_eq_get h1
  have hb := List.get?_eq_get h2
  have hc := List.get?_eq_get h3
  have hd := List.get?_eq_get h4
  have e1 : dictPath (mkProjPayload oys onw oinc) ["data", "netWorth"] =
      Except.ok (Json.arr onw) := rfl
  have e2 : dictPath (mkProjPayload rys rnw rinc) ["data", "netWorth"] =
      Except.ok (Json.arr rnw) := rfl
  have e3 : dictPath (mkProjPayload oys onw oinc) ["data", "income"] =
      Except.ok (Json.arr oinc) := rfl
  have e4 : dictPath (mkProjPayload rys rnw rinc) ["data", "income"] =
      Except.ok (Json.arr rinc) := rfl
  simp only [vpCheckAt, vpIndexOf, e1, e2, e3, e4, bind, Except.bind, pyIndex, ha, hb, hc, hd]
  by_cases hab : onw.get ⟨i, h1⟩ = rnw.get ⟨i, h2⟩ <;>
  by_cases hcd : oinc.get ⟨i, h3⟩ = rinc.get ⟨i, h4⟩ <;>
  simp only [List.get_eq_getElem] at hab hcd <;>
  simp [hab, hcd]

theorem vpLoop_mkProj :
    ∀ (k i : Nat) (oys rys onw rnw oinc rinc : List Json),
      i + k ≤ onw.length → i + k ≤ rnw.length → i + k ≤ oinc.length → i + k ≤ rinc.length →
      ((vpLoop (mkProjPayload oys onw oinc) (mkProjPayload rys rnw rinc) i k =
          Except.ok true) ↔
        ∀ j : Nat, i ≤ j → j < i + k →
          onw.get? j = rnw.get? j ∧ oinc.get? j = rinc.get? j) ∧
      (vpLoop (mkProjPayload oys onw oinc) (mkProjPayload rys rnw rinc) i k =
          Except.ok true ∨
        vpLoop (mkProjPayload oys onw oinc) (mkProjPayload rys rnw rinc) i k =
          Except.error (PyError.valueError preTransitionMsg)) := by
  intro k
  induction k with
  | zero =>
      intro i oys rys onw rnw oinc rinc _ _ _ _
      refine ⟨?_, Or.inl rfl⟩
      simp only [vpLoop]
      constructor
      · intro _ j hj1 hj2
        omega
      · intro _
        trivial
  | succ k ih =>
      intro i oys rys onw rnw oinc rinc h1 h2 h3 h4
      have hck := vpCheckAt_mkProj oys rys onw rnw oinc rinc i (by omega) (by omega)
        (by omega) (by omega)
      rcases hck.2 with hok | herr
      · have hstep : vpLoop (mkProjPayload oys onw oinc) (mkProjPayload rys rnw rinc) i
            (k + 1) = vpLoop (mkProjPayload oys onw oinc) (mkProjPayload rys rnw rinc)
            (i + 1) k := by
          simp [vpLoop, hok, bind, Except.bind]
        have ihi := ih (i + 1) oys rys onw rnw oinc rinc (by omega) (by omega) (by omega)
          (by omega)
        constructor
        · rw [hstep, ihi.1]
          constructor
          · intro hall j hj1 hj2
            rcases Nat.eq_or_lt_of_le hj1 with hj | hj
            · subst hj
              exact hck.1.mp hok
            · exact hall j hj (by omega)
          · intro hall j hj1 hj2
            exact hall j (by omega) (by omega)
        · rw [hstep]
          exact ihi.2
      · have hstep : vpLoop (mkProjPayload oys onw oinc) (mkProjPayload rys rnw rinc) i
            (k + 1) = Except.error (PyError.valueError preTransitionMsg) := by
          simp [vpLoop, herr, bind, Except.bind]
        constructor
        · rw [hstep]
          constructor
          · intro hfalse
            exact Except.noConfusion hfalse
          · intro hall
            exfalso
            have hoki := hck.1.mpr (hall i le_rfl (by omega))
            rw [hoki] at herr
            exact Except.noConfusion herr
        · rw [hstep]
          exact Or.inr rfl

/-- C10 (amended): `validate_projection_data` never mutates its arguments
(it is a pure reader in the model); when `transition_year - 1` does not
exceed the length of any of the four compared arrays, it returns `True`
exactly when the two years arrays have equal length and the netWorth and
income entries agree at every index up to `transition_year - 2`, and every
other outcome in that range is a `ValueError`; outside that range the loop
indexes past an array's end and the error is an `IndexError` instead. -/
theorem C10_validate_projection :
    ∀ (oys rys onw rnw oinc rinc : List Json) (t : Nat),
      t - 1 ≤ onw.length → t - 1 ≤ rnw.length → t - 1 ≤ oinc.length → t - 1 ≤ rinc.length →
      ((validate_projection_data (mkProjPayload oys onw oinc) (mkProjPayload rys rnw rinc)
          t = Except.ok true) ↔
        (oys.length = rys.length ∧
          ∀ i : Nat, i < t - 1 → onw.get? i = rnw.get? i ∧ oinc.get? i = rinc.get? i)) ∧
      (validate_projection_data (mkProjPayload oys onw oinc) (mkProjPayload rys rnw rinc)
          t = Except.ok true ∨
        ∃ msg, validate_projection_data (mkProjPayload oys onw oinc)
          (mkProjPayload rys rnw rinc) t = Except.error (PyError.valueError msg)) := by
  intro oys rys onw rnw oinc rinc t h1 h2 h3 h4
  have e0 : validate_projection_data (mkProjPayload oys onw oinc)
      (mkProjPayload rys rnw rinc) t =
      if oys.length ≠ rys.length then Except.error (PyError.valueError yearRangesMsg)
      else vpLoop (mkProjPayload oys onw oinc) (mkProjPayload rys rnw rinc) 0 (t - 1) :=
    rfl
  have hl := vpLoop_mkProj (t - 1) 0 oys rys onw rnw oinc rinc (by omega) (by omega)
    (by omega) (by omega)
  by_cases hy : oys.length = rys.length
  · rw [e0, if_neg (by omega)]
    constructor
    · rw [hl.1]
      constructor
      · intro hall
        exact ⟨hy, fun i hi => hall i (Nat.zero_le i) (by omega)⟩
      · rintro ⟨_, hall⟩ j hj1 hj2
        exact hall j (by omega)
    · rcases hl.2 with hok | herr
      · exact Or.inl hok
      · exact Or.inr ⟨preTransitionMsg, herr⟩
  · rw [e0, if_pos hy]
    constructor
    · constructor
      · intro hfalse
        exact Except.noConfusion hfalse
      · rintro ⟨hcontra, _⟩
        exact absurd hcontra hy
    · exact Or.inr ⟨yearRangesMsg, rfl⟩

/-- Witness for C10 (amended): equal single-entry projections with
transition year 2 validate to `True`. -/
theorem C10_validate_projection_witness :
    validate_projection_data (mkProjPayload [Json.num 1] [Json.num 9] [Json.num 8])
      (mkProjPayload [Json.num 1] [Json.num 9] [Json.num 8]) 2 = Except.ok true :=
  (C10_validate_projection [Json.num 1] [Json.num 1] [Json.num 9] [Json.num 9]
    [Json.num 8] [Json.num 8] 2 (by decide) (by decide) (by decide) (by decide)).1.mpr
    ⟨rfl, by decide⟩

end FinancialRag
